import Mathlib

/-!
Verification of the SpanishVIP teacher-screening bot conversation core.

The repository ships two Cloudflare-worker variants of the same bot in one
source file: a basic 5-question variant (namespace `V1` below) whose button
callback data is of the form "q1:yes", and an extended 8-question variant
(namespace `V2`) whose callback data is of the form "Q1_YES" and is mapped to
canonical values through `CALLBACK_VALUE_MAP`; the extended variant also has a
free-text age step.  Both variants share the same KV-backed sliding-window
rate limiter.

All definitions are shallow embeddings of the TypeScript source
(`src/index.ts`): handlers are modelled as pure functions from their inputs
(parsed stored state, the current time, configuration) to the ordered list of
side effects they perform (Telegram sends, webhook posts, KV writes).
-/

namespace TeacherBot

/-! ## JavaScript helpers

`parseIntJS` models `parseInt(s, 10)`: skip leading whitespace, optional
sign, then the longest leading digit run; `none` models `NaN`. -/

def digitsToNat (cs : List Char) : Nat :=
  cs.foldl (fun acc c => acc * 10 + (c.toNat - 48)) 0

def parseDigits (cs : List Char) : Option Nat :=
  let ds := cs.takeWhile (fun c => c.isDigit)
  if ds.isEmpty then none else some (digitsToNat ds)

def parseIntJS (s : String) : Option Int :=
  match s.data.dropWhile (fun c => c.isWhitespace) with
  | '-' :: rest => (parseDigits rest).map (fun n => -(n : Int))
  | '+' :: rest => (parseDigits rest).map (fun n => (n : Int))
  | rest => (parseDigits rest).map (fun n => (n : Int))

/-- Models `parseInt(env.MIN_WEEKLY_HOURS ?? "15", 10) || 15`: `NaN` and `0` are
falsy in JavaScript, so both fall back to 15. -/
def resolveMinWeeklyHours (envVar : Option String) : Int :=
  match parseIntJS (envVar.getD "15") with
  | none => 15
  | some n => if n = 0 then 15 else n

/-- Split a string at the first occurrence of `sep`
(`data.indexOf(sep)` / `data.slice(0, i)` / `data.slice(i + 1)`);
`none` when `sep` does not occur. -/
def splitFirst (sep : Char) (s : String) : Option (String × String) :=
  if s.data.contains sep then
    some (String.mk (s.data.takeWhile (fun c => c ≠ sep)),
          String.mk ((s.data.dropWhile (fun c => c ≠ sep)).tail))
  else none

/-- Models `trimmed.split(/\s+/)` on an already-trimmed string: whitespace runs
separate the parts and produce no empty parts. -/
def splitWs (s : String) : List String :=
  (s.split (fun c => c.isWhitespace)).filter (fun p => p ≠ "")

/-- JavaScript `String.prototype.trim`: strip whitespace from both ends. -/
def jsTrim (s : String) : String :=
  String.mk
    (((s.data.dropWhile (fun c => c.isWhitespace)).reverse.dropWhile
      (fun c => c.isWhitespace)).reverse)

/-- JavaScript `String.prototype.startsWith`. -/
def jsStartsWith (s p : String) : Bool :=
  p.data.isPrefixOf s.data

/-! ## JavaScript property-access semantics

The source indexes plain object literals with untrusted strings
(`CALLBACK_VALUE_MAP[qPrefix]`, `prefixMap[callbackSuffix]`,
`HOURS_MAP[answer]`).  A JavaScript property read on a plain object also
walks the prototype chain: for the own property names of `Object.prototype`
it returns a truthy inherited function or object instead of `undefined`.
The definitions below model that access semantics precisely; the per-object
own-entry tables are defined inside the variant namespaces. -/

/-- The own property names of `Object.prototype`: reading any of these on a
plain object literal yields a truthy inherited function or object (never
`undefined`), so `!value` guards and `??` defaults do not fire for them. -/
def OBJECT_PROTOTYPE_KEYS : List String :=
  ["constructor", "hasOwnProperty", "isPrototypeOf", "propertyIsEnumerable",
   "toLocaleString", "toString", "valueOf", "__defineGetter__",
   "__defineSetter__", "__lookupGetter__", "__lookupSetter__", "__proto__"]

/-- Result of a JavaScript property read `obj[key]` on a string-valued plain
object literal: an own entry's string, a truthy value inherited from
`Object.prototype`, or `undefined`. -/
inductive JsProp where
  | ownStr (v : String)
  | inherited
  | undef
deriving DecidableEq, Repr

/-- JavaScript read `obj[key]` for a string-valued object literal whose own
entries are `m`. -/
def jsPropGet (m : List (String × String)) (key : String) : JsProp :=
  match List.lookup key m with
  | some v => JsProp.ownStr v
  | none =>
    if key ∈ OBJECT_PROTOTYPE_KEYS then JsProp.inherited else JsProp.undef

/-- The value of `HOURS_MAP[answer] ?? 0` under JavaScript semantics: an own
key yields its number; an `Object.prototype` property name yields the truthy
inherited value (so `?? 0` does not apply); any other key yields `undefined`,
which `?? 0` replaces by 0. -/
inductive JsHours where
  | num (n : Int)
  | inherited
deriving DecidableEq, Repr

def hoursReadJS (ownMap : String → Option Int) (answer : String) : JsHours :=
  match ownMap answer with
  | some n => JsHours.num n
  | none =>
    if answer ∈ OBJECT_PROTOTYPE_KEYS then JsHours.inherited else JsHours.num 0

/-- The comparison `hours < minWeeklyHours`: a number compares numerically;
an inherited function or object coerces to `NaN`, and every `NaN` comparison
is false. -/
def jsHoursLt (h : JsHours) (m : Int) : Bool :=
  match h with
  | JsHours.num n => n < m
  | JsHours.inherited => false

/-- JavaScript-faithful weekly-availability fail condition
`(HOURS_MAP[answer] ?? 0) < minWeeklyHours` of `checkFailCondition` (the
condition is shared by both variants; only the reason text differs). -/
def q2FailTriggersJS (ownMap : String → Option Int) (answer : String)
    (minWeeklyHours : Int) : Bool :=
  jsHoursLt (hoursReadJS ownMap answer) minWeeklyHours

/-! ## Rate limiter (identical in both worker variants) -/

structure RateLimitState where
  timestamps : List Int
deriving DecidableEq, Repr

def RATE_LIMIT_WINDOW_MS : Int := 10000

def RATE_LIMIT_MAX_ACTIONS : Nat := 5

/-- The KV-backed `checkRateLimit`: prune the stored window to the trailing 10 seconds; if
already at the ceiling return not-allowed without writing, otherwise store the
pruned window with the current time appended and return allowed.  The returned
state is the stored state after the call (unchanged on rejection, since no KV
write happens). -/
def checkRateLimit (state : RateLimitState) (now : Int) : Bool × RateLimitState :=
  let recent := state.timestamps.filter (fun t => now - t < RATE_LIMIT_WINDOW_MS)
  if RATE_LIMIT_MAX_ACTIONS ≤ recent.length then
    (false, state)
  else
    (true, ⟨recent ++ [now]⟩)

/-- Sequential runs of the rate limiter for one identity: feed event times in
order, collect the admitted times. -/
def runRateLimiter : RateLimitState → List Int → List Int
  | _, [] => []
  | s, now :: rest =>
    if (checkRateLimit s now).1 then
      now :: runRateLimiter (checkRateLimit s now).2 rest
    else
      runRateLimiter (checkRateLimit s now).2 rest

/-- Number of times in `l` lying in the trailing window `(T - 10000, T]`. -/
def cntW (T : Int) (l : List Int) : Nat :=
  (l.filter (fun t => T - t < RATE_LIMIT_WINDOW_MS ∧ t ≤ T)).length

theorem mem_runRateLimiter {s : RateLimitState} {es : List Int} {t : Int}
    (h : t ∈ runRateLimiter s es) : t ∈ es := by
  induction es generalizing s with
  | nil => simp [runRateLimiter] at h
  | cons now rest ih =>
    rw [runRateLimiter] at h
    by_cases hc : (checkRateLimit s now).1
    · rw [if_pos hc] at h
      rcases List.mem_cons.mp h with h1 | h2
      · exact h1 ▸ List.mem_cons_self now rest
      · exact List.mem_cons_of_mem now (ih h2)
    · rw [if_neg hc] at h
      exact List.mem_cons_of_mem now (ih h)

/-- Key invariant of the sliding-window limiter: over any run with
nondecreasing event times, the number of admitted events inside any trailing
window `(T - 10000, T]`, plus the (capped) number of already-stored timestamps
in that window, never exceeds the ceiling. -/
theorem runRateLimiter_window_bound (T : Int) :
    ∀ (es : List Int) (s : RateLimitState), es.Sorted (· ≤ ·) →
    (∀ t ∈ s.timestamps, ∀ e ∈ es, t ≤ e) →
    cntW T (runRateLimiter s es) + min RATE_LIMIT_MAX_ACTIONS (cntW T s.timestamps)
      ≤ RATE_LIMIT_MAX_ACTIONS := by
  intro es
  induction es with
  | nil =>
    intro s _ _
    simp only [runRateLimiter, cntW, List.filter_nil, List.length_nil, Nat.zero_add]
    exact Nat.min_le_left _ _
  | cons now rest ih =>
    intro s hsort hle
    have hnowle : ∀ e ∈ rest, now ≤ e := (List.pairwise_cons.mp hsort).1
    have hsort' : rest.Sorted (· ≤ ·) := (List.pairwise_cons.mp hsort).2
    rw [runRateLimiter]
    by_cases hlen :
        RATE_LIMIT_MAX_ACTIONS ≤
          (s.timestamps.filter (fun t => now - t < RATE_LIMIT_WINDOW_MS)).length
    · -- rejected: no state change, recurse on the tail
      have hcrl : checkRateLimit s now = (false, s) := by
        simp only [checkRateLimit, if_pos hlen]
      rw [hcrl]
      simp only [Bool.false_eq_true, if_false]
      exact ih s hsort' (fun t ht e he => hle t ht e (List.mem_cons_of_mem now he))
    · -- admitted: state becomes pruned window plus `now`
      have hcrl : checkRateLimit s now =
          (true, ⟨(s.timestamps.filter (fun t => now - t < RATE_LIMIT_WINDOW_MS)) ++ [now]⟩) := by
        simp only [checkRateLimit, if_neg hlen]
      rw [hcrl]
      simp only [if_true]
      set recent := s.timestamps.filter (fun t => now - t < RATE_LIMIT_WINDOW_MS) with hrec
      have hle' : ∀ t ∈ (RateLimitState.mk (recent ++ [now])).timestamps,
          ∀ e ∈ rest, t ≤ e := by
        intro t ht e he
        rcases List.mem_append.mp ht with h1 | h2
        · exact hle t (List.mem_of_mem_filter h1) e (List.mem_cons_of_mem now he)
        · rcases List.mem_singleton.mp h2 with rfl
          exact hnowle e he
      have ihx := ih ⟨recent ++ [now]⟩ hsort' hle'
      by_cases hT : now ≤ T
      · -- `now` may fall inside the window; stored in-window entries survive pruning
        have hsub : cntW T recent = cntW T s.timestamps := by
          rw [hrec, cntW, cntW, List.filter_filter]
          have : ∀ t ∈ s.timestamps,
              ((decide (T - t < RATE_LIMIT_WINDOW_MS ∧ t ≤ T)) &&
                (decide (now - t < RATE_LIMIT_WINDOW_MS)))
              = decide (T - t < RATE_LIMIT_WINDOW_MS ∧ t ≤ T) := by
            intro t _
            by_cases hw : T - t < RATE_LIMIT_WINDOW_MS ∧ t ≤ T
            · have : now - t < RATE_LIMIT_WINDOW_MS := by omega
              simp [hw, this]
            · simp [hw]
          rw [List.filter_congr this]
      -- count in the new state
        have hstep : cntW T (recent ++ [now]) =
            cntW T s.timestamps + (if T - now < RATE_LIMIT_WINDOW_MS ∧ now ≤ T then 1 else 0) := by
          rw [cntW, List.filter_append, List.length_append, ← cntW, ← cntW, hsub]
          congr 1
          by_cases hw : T - now < RATE_LIMIT_WINDOW_MS ∧ now ≤ T
          · simp [cntW, hw]
          · simp [cntW, hw]
        have hbound : cntW T s.timestamps ≤ recent.length := by
          have : cntW T recent ≤ recent.length := List.length_filter_le _ _
          omega
        have hlen' : recent.length < RATE_LIMIT_MAX_ACTIONS := Nat.lt_of_not_le hlen
        have hcons : cntW T (now :: runRateLimiter ⟨recent ++ [now]⟩ rest) =
            (if T - now < RATE_LIMIT_WINDOW_MS ∧ now ≤ T then 1 else 0) +
              cntW T (runRateLimiter ⟨recent ++ [now]⟩ rest) := by
          by_cases hw : T - now < RATE_LIMIT_WINDOW_MS ∧ now ≤ T
          · simp [cntW, hw, Nat.add_comm]
          · simp [cntW, hw]
        rw [hcons]
        rw [hstep] at ihx
        have hi : (if T - now < RATE_LIMIT_WINDOW_MS ∧ now ≤ T then 1 else 0) ≤ 1 := by
          split <;> omega
        have hc4 : cntW T s.timestamps < RATE_LIMIT_MAX_ACTIONS :=
          Nat.lt_of_le_of_lt hbound hlen'
        have hmin1 : min RATE_LIMIT_MAX_ACTIONS (cntW T s.timestamps)
            = cntW T s.timestamps := min_eq_right (Nat.le_of_lt hc4)
        have hmin2 : min RATE_LIMIT_MAX_ACTIONS
            (cntW T s.timestamps + (if T - now < RATE_LIMIT_WINDOW_MS ∧ now ≤ T then 1 else 0))
            = cntW T s.timestamps
              + (if T - now < RATE_LIMIT_WINDOW_MS ∧ now ≤ T then 1 else 0) := by
          apply min_eq_right
          omega
        rw [hmin1]
        rw [hmin2] at ihx
        omega
      · -- every later event lies beyond the window endpoint `T`
        have hnone : cntW T (runRateLimiter ⟨recent ++ [now]⟩ rest) = 0 := by
          rw [cntW, List.length_eq_zero]
          rw [List.filter_eq_nil_iff]
          intro t ht
          have h1 : now ≤ t := hnowle t (mem_runRateLimiter ht)
          simp only [decide_eq_true_eq, not_and]
          intro _
          omega
        have hzero : cntW T (now :: runRateLimiter ⟨recent ++ [now]⟩ rest) = 0 := by
          rw [cntW, List.length_eq_zero, List.filter_eq_nil_iff]
          intro t ht
          rcases List.mem_cons.mp ht with rfl | h2
          · simp only [decide_eq_true_eq, not_and]
            intro _
            omega
          · have h1 : now ≤ t := hnowle t (mem_runRateLimiter h2)
            simp only [decide_eq_true_eq, not_and]
            intro _
            omega
        rw [hzero]
        exact Nat.zero_add _ ▸ Nat.min_le_left _ _

/-! ## Shared Telegram-facing data -/

structure TelegramUser where
  id : Int
  username : Option String
  first_name : String
deriving DecidableEq, Repr

structure CallbackQuery where
  id : String
  fromUser : TelegramUser
  data : Option String
deriving DecidableEq, Repr

structure QuestionButton where
  text : String
  data : String
deriving DecidableEq, Repr

structure Question where
  key : String
  text : String
  buttons : List (List QuestionButton)
deriving DecidableEq, Repr

def emptyQuestion : Question := { key := "", text := "", buttons := [] }

/-! ## V1 — basic 5-question worker variant -/

namespace V1

inductive Step where
  | q1_team_role
  | q2_weekly_hours
  | q3_start_date
  | q4_setup
  | q5_sop
  | completed
deriving DecidableEq, Repr

structure Answers where
  team_role : Option String
  weekly_availability : Option String
  start_date : Option String
  setup : Option String
  sop : Option String
deriving DecidableEq, Repr

def emptyAnswers : Answers :=
  { team_role := none, weekly_availability := none, start_date := none,
    setup := none, sop := none }

structure SessionState where
  applicant_token : String
  step : Step
  answers : Answers
  started_at : String
  telegram_username : Option String
deriving DecidableEq, Repr

structure Config where
  MIN_WEEKLY_HOURS : Option String
  MARIA_TELEGRAM_LINK : String
deriving DecidableEq, Repr

structure ResultPayload where
  applicant_token : String
  telegram_chat_id : Int
  telegram_username : Option String
  result : String
  reason : String
  answers : Answers
  completed_at : String
deriving DecidableEq, Repr

/-- Side effects performed by the handlers, in order.  `rateLimitPut` is the
KV write done inside `checkRateLimit` when the event is admitted. -/
inductive Effect where
  | answerCallback (id : String)
  | rateLimitPut (rl : RateLimitState)
  | sendMessage (chatId : Int) (text : String) (markup : Option (List (List QuestionButton)))
  | webhookPost (p : ResultPayload)
  | saveSession (chatId : Int) (s : SessionState)
  | deleteSession (chatId : Int)
deriving DecidableEq, Repr

def QUESTIONS : List Question := [
  { key := "team_role",
    text := "👋 *Question 1 of 5*\n\nAre you applying as a *SpanishVIP team member*?\n\n_Note: This is an internal team position — not a marketplace or freelance platform like italki or Preply._",
    buttons := [
      [{ text := "✅ Yes, I'm applying as a team member", data := "q1:yes" }],
      [{ text := "❌ No, I prefer marketplace platforms", data := "q1:no" }]] },
  { key := "weekly_availability",
    text := "📅 *Question 2 of 5*\n\nHow many hours per week are you available to teach?\n\n_Choose the option that best reflects your current availability._",
    buttons := [
      [{ text := "⏰ Full-time — 30+ hours/week", data := "q2:full_time" }],
      [{ text := "🕐 Part-time — 15–29 hours/week", data := "q2:part_time" }],
      [{ text := "🔸 Less than 15 hours/week", data := "q2:less_than_15" }]] },
  { key := "start_date",
    text := "🚀 *Question 3 of 5*\n\nWhen would you be ready to start teaching with SpanishVIP?",
    buttons := [
      [{ text := "🟢 Immediately", data := "q3:immediately" }],
      [{ text := "📆 In 1–2 weeks", data := "q3:one_two_weeks" }],
      [{ text := "🗓 In 1 month or more", data := "q3:one_month_plus" }]] },
  { key := "setup",
    text := "💻 *Question 4 of 5*\n\nDo you have *both* of the following?\n\n• A stable internet connection\n• A quiet, professional teaching space",
    buttons := [
      [{ text := "✅ Yes, I have both", data := "q4:yes" }],
      [{ text := "❌ No / Not yet", data := "q4:no" }]] },
  { key := "sop",
    text := "📋 *Question 5 of 5*\n\nSpanishVIP uses a structured curriculum and standard operating procedures (SOPs). Are you willing to follow them consistently?",
    buttons := [
      [{ text := "✅ Yes, absolutely", data := "q5:yes" }],
      [{ text := "❌ No, I prefer my own approach", data := "q5:no" }]] }]

def STEP_ORDER : List Step :=
  [Step.q1_team_role, Step.q2_weekly_hours, Step.q3_start_date, Step.q4_setup, Step.q5_sop]

/-- The callback-data code that each step's buttons carry before the colon
(the source's step-to-code table; empty for the terminal step). -/
def STEP_CODE : Step → String
  | Step.q1_team_role => "q1"
  | Step.q2_weekly_hours => "q2"
  | Step.q3_start_date => "q3"
  | Step.q4_setup => "q4"
  | Step.q5_sop => "q5"
  | Step.completed => ""

/-- Own entries of the source's `HOURS_MAP` object literal.  A JavaScript
read `HOURS_MAP[answer]` additionally returns truthy inherited values for
`Object.prototype` property names; that full access semantics is modelled by
`hoursReadJS` and `q2FailTriggersJS`. -/
def HOURS_MAP : String → Option Int
  | "full_time" => some 30
  | "part_time" => some 20
  | "less_than_15" => some 0
  | _ => none

def setAnswer (a : Answers) (key : String) (v : String) : Answers :=
  match key with
  | "team_role" => { a with team_role := some v }
  | "weekly_availability" => { a with weekly_availability := some v }
  | "start_date" => { a with start_date := some v }
  | "setup" => { a with setup := some v }
  | "sop" => { a with sop := some v }
  | _ => a

def checkFailCondition (step : Step) (answer : String) (minWeeklyHours : Int) :
    Option String :=
  match step with
  | Step.q1_team_role =>
    if answer = "no" then some "Not applying as a SpanishVIP team member" else none
  | Step.q2_weekly_hours =>
    let hours := (HOURS_MAP answer).getD 0
    if hours < minWeeklyHours then
      some s!"Availability (approx. {hours}h/week) is below the minimum required ({minWeeklyHours}h/week)"
    else none
  | Step.q4_setup =>
    if answer = "no" then
      some "Does not have stable internet and/or a professional teaching space"
    else none
  | Step.q5_sop =>
    if answer = "no" then
      some "Unwilling to follow SpanishVIP curriculum and SOPs"
    else none
  | _ => none

def sendQuestion (chatId : Int) (questionIndex : Nat) : List Effect :=
  let question := QUESTIONS.getD questionIndex emptyQuestion
  [Effect.sendMessage chatId question.text (some question.buttons)]

def passMessage (cfg : Config) : String :=
  "🎉 *Congratulations!* You've passed the initial screening.\n\n" ++
  "Our team will review your application and reach out soon.\n\n" ++
  "In the meantime, you can also connect directly with our coordinator:\n" ++
  cfg.MARIA_TELEGRAM_LINK

def failMessage (reason : String) : String :=
  "Thank you for your interest in SpanishVIP! 🙏\n\n" ++
  "Based on your answers, we're not able to move forward at this time.\n\n" ++
  s!"_Reason: {reason}_\n\n" ++
  "We appreciate you taking the time and wish you all the best in your teaching career!"

/-- The finalizer `reportResult`: post to the webhook, send the verdict message, then mark
the session completed, persist it and delete it — in that order. -/
def reportResult (result reason : String) (state : SessionState) (chatId : Int)
    (fromUser : TelegramUser) (cfg : Config) (nowIso : String) : List Effect :=
  let payload : ResultPayload :=
    { applicant_token := state.applicant_token, telegram_chat_id := chatId,
      telegram_username := fromUser.username, result := result, reason := reason,
      answers := state.answers, completed_at := nowIso }
  let userMsg := if result = "pass" then passMessage cfg else failMessage reason
  [Effect.webhookPost payload,
   Effect.sendMessage chatId userMsg none,
   Effect.saveSession chatId { state with step := Step.completed },
   Effect.deleteSession chatId]

/-- The button-press handler `handleCallbackQuery`, over the already-loaded session (`stored`), the
parsed rate-limit window and the current time. -/
def handleCallbackQuery (cq : CallbackQuery) (rl : RateLimitState) (now : Int)
    (nowIso : String) (stored : Option SessionState) (cfg : Config) : List Effect :=
  let chatId := cq.fromUser.id
  let data := cq.data.getD ""
  let ackE : List Effect := [Effect.answerCallback cq.id]
  match checkRateLimit rl now with
  | (false, _) =>
    ackE ++ [Effect.sendMessage chatId
      "⏳ You're clicking too quickly. Please wait a moment before continuing." none]
  | (true, rlNew) =>
    let rlE : List Effect := [Effect.rateLimitPut rlNew]
    match stored with
    | none =>
      ackE ++ rlE ++ [Effect.sendMessage chatId
        "⚠️ Your session has expired or was not found.\n\nPlease use the *Telegram link* from your application email to start a new screening." none]
    | some state =>
      if state.step = Step.completed then
        ackE ++ rlE
      else
        match splitFirst ':' data with
        | none => ackE ++ rlE
        | some (qCode, answerValue) =>
          if qCode ≠ STEP_CODE state.step then
            ackE ++ rlE
          else
            match STEP_ORDER.indexOf? state.step with
            | none => ackE ++ rlE
            | some stepIndex =>
              let question := QUESTIONS.getD stepIndex emptyQuestion
              let state1 := { state with
                answers := setAnswer state.answers question.key answerValue }
              let minWeeklyHours := resolveMinWeeklyHours cfg.MIN_WEEKLY_HOURS
              match checkFailCondition state1.step answerValue minWeeklyHours with
              | some failReason =>
                ackE ++ rlE ++ reportResult "fail" failReason state1 chatId cq.fromUser cfg nowIso
              | none =>
                let nextStepIndex := stepIndex + 1
                if STEP_ORDER.length ≤ nextStepIndex then
                  ackE ++ rlE ++ reportResult "pass" "" state1 chatId cq.fromUser cfg nowIso
                else
                  let state2 := { state1 with step := STEP_ORDER.getD nextStepIndex Step.completed }
                  ackE ++ rlE ++ [Effect.saveSession chatId state2]
                    ++ sendQuestion chatId nextStepIndex

/-- Replay the session-store writes of an effect list onto a store. -/
def applyEffects (σ : Int → Option SessionState) : List Effect → Int → Option SessionState
  | [], i => σ i
  | Effect.saveSession cid s :: rest, i =>
    applyEffects (fun j => if j = cid then some s else σ j) rest i
  | Effect.deleteSession cid :: rest, i =>
    applyEffects (fun j => if j = cid then none else σ j) rest i
  | _ :: rest, i => applyEffects σ rest i

/-- All trigger codes the catalog renders for question `i` (the buttons'
`callback_data` values). -/
def catalogCodes (i : Nat) : List String :=
  ((QUESTIONS.getD i emptyQuestion).buttons.flatten).map (fun b => b.data)

end V1

/-! ## V2 — extended 8-question worker variant -/

namespace V2

inductive Step where
  | q1_team_role
  | q2_weekly_hours
  | q3_start_date
  | q4_setup
  | q5_sop
  | q6_english
  | q7_age
  | q8_student_types
  | completed
deriving DecidableEq, Repr

structure Answers where
  team_role : Option String
  weekly_availability : Option String
  start_date : Option String
  setup : Option String
  sop : Option String
  english_level : Option String
  age : Option Int
  student_types : Option String
deriving DecidableEq, Repr

def emptyAnswers : Answers :=
  { team_role := none, weekly_availability := none, start_date := none,
    setup := none, sop := none, english_level := none, age := none,
    student_types := none }

structure SessionState where
  applicant_token : String
  step : Step
  answers : Answers
  started_at : String
  telegram_username : Option String
deriving DecidableEq, Repr

structure Config where
  MIN_WEEKLY_HOURS : Option String
  MARIA_WHATSAPP_LINK : String
deriving DecidableEq, Repr

structure ResultPayload where
  applicant_token : String
  telegram_chat_id : Int
  telegram_username : Option String
  result : String
  reason : String
  answers : Answers
  completed_at : String
deriving DecidableEq, Repr

inductive Effect where
  | answerCallback (id : String)
  | rateLimitPut (rl : RateLimitState)
  | sendMessage (chatId : Int) (text : String) (markup : Option (List (List QuestionButton)))
  | webhookPost (p : ResultPayload)
  | saveSession (chatId : Int) (s : SessionState)
  | deleteSession (chatId : Int)
deriving DecidableEq, Repr

def QUESTIONS : List Question := [
  { key := "team_role",
    text := "<b>Q1/8</b> 🧩\nEn SpanishVIP buscamos un rol de <b>equipo</b> (no estilo marketplace).\n¿Buscas un rol fijo y comprometido con el equipo?",
    buttons := [
      [{ text := "1) ✅ Sí", data := "Q1_YES" }],
      [{ text := "2) ❌ No", data := "Q1_NO" }]] },
  { key := "weekly_availability",
    text := "<b>Q2/8</b> 🗓️\n¿Cuántas horas por semana puedes comprometerte de forma constante?",
    buttons := [
      [{ text := "1) 💪 Tiempo completo (30+ hrs/sem)", data := "Q2_FT" }],
      [{ text := "2) 🙂 Medio tiempo (15–29 hrs/sem)", data := "Q2_PT" }],
      [{ text := "3) 🥲 Menos de 15 hrs/sem", data := "Q2_LOW" }]] },
  { key := "start_date",
    text := "<b>Q3/8</b> ⏱️\n¿Cuándo podrías empezar?",
    buttons := [
      [{ text := "1) 🚀 Inmediatamente", data := "Q3_NOW" }],
      [{ text := "2) 📆 En 1–2 semanas", data := "Q3_SOON" }],
      [{ text := "3) 🗓️ En 1 mes o más", data := "Q3_LATER" }]] },
  { key := "setup",
    text := "<b>Q4/8</b> 💻🎧\n¿Tienes internet estable + un lugar tranquilo para enseñar?",
    buttons := [
      [{ text := "1) ✅ Sí", data := "Q4_YES" }],
      [{ text := "2) ❌ No", data := "Q4_NO" }]] },
  { key := "sop",
    text := "<b>Q5/8</b> 📚✨\n¿Estás de acuerdo en seguir el currículum y los SOPs del equipo?",
    buttons := [
      [{ text := "1) ✅ Sí", data := "Q5_YES" }],
      [{ text := "2) ❌ No", data := "Q5_NO" }]] },
  { key := "english_level",
    text := "<b>Q6/8</b> 🇺🇸🗣️\n¿Cuál es tu nivel de inglés?",
    buttons := [
      [{ text := "1) ✅ Bueno", data := "Q6_GOOD" }],
      [{ text := "2) 🙂 Me defiendo", data := "Q6_OK" }],
      [{ text := "3) ❌ No sé mucho", data := "Q6_LOW" }]] },
  { key := "age",
    text := "<b>Q7/8</b> 🎂\n¿Cuál es tu edad?\n(Escribe solo el número, por ejemplo: 24)",
    buttons := [] },
  { key := "student_types",
    text := "<b>Q8/8</b> 👩‍🏫\n¿A qué tipo de estudiantes has enseñado?",
    buttons := [
      [{ text := "1) Niños 👧🧒", data := "Q8_KIDS" }],
      [{ text := "2) Jóvenes 🎓", data := "Q8_TEENS" }],
      [{ text := "3) Adultos 💼", data := "Q8_ADULTS" }],
      [{ text := "4) Todos los anteriores 🌟", data := "Q8_ALL" }]] }]

def STEP_ORDER : List Step :=
  [Step.q1_team_role, Step.q2_weekly_hours, Step.q3_start_date, Step.q4_setup,
   Step.q5_sop, Step.q6_english, Step.q7_age, Step.q8_student_types]

/-- The callback-data code that each step's buttons carry before the
underscore (empty for the terminal step). -/
def STEP_CODE : Step → String
  | Step.q1_team_role => "Q1"
  | Step.q2_weekly_hours => "Q2"
  | Step.q3_start_date => "Q3"
  | Step.q4_setup => "Q4"
  | Step.q5_sop => "Q5"
  | Step.q6_english => "Q6"
  | Step.q7_age => "Q7"
  | Step.q8_student_types => "Q8"
  | Step.completed => ""

/-- Own entries of the per-question suffix-to-canonical-value maps.  Q7 (the
free-text age question) has no entry.  A JavaScript read
`prefixMap[callbackSuffix]` additionally returns truthy inherited values for
`Object.prototype` property names such as "__proto__" — the source then
accepts and records that inherited value instead of dropping the event.  That
access semantics is modelled by `jsPropGet`; the handler below performs the
own-key lookup, and `c1_unmapped_code_dropped_extended` states the drop
behavior only for suffixes whose JavaScript read is `undefined`. -/
def CALLBACK_VALUE_MAP (qCode : String) : Option (List (String × String)) :=
  match qCode with
  | "Q1" => some [("YES", "yes"), ("NO", "no")]
  | "Q2" => some [("FT", "full_time"), ("PT", "part_time"), ("LOW", "low")]
  | "Q3" => some [("NOW", "now"), ("SOON", "soon"), ("LATER", "later")]
  | "Q4" => some [("YES", "yes"), ("NO", "no")]
  | "Q5" => some [("YES", "yes"), ("NO", "no")]
  | "Q6" => some [("GOOD", "good"), ("OK", "ok"), ("LOW", "low")]
  | "Q8" => some [("KIDS", "kids"), ("TEENS", "teens"), ("ADULTS", "adults"), ("ALL", "all")]
  | _ => none

/-- Own entries of the extended variant's `HOURS_MAP` object literal; as in
the basic variant, the full JavaScript access semantics (truthy inherited
values for `Object.prototype` property names) is modelled by `hoursReadJS`
and `q2FailTriggersJS`. -/
def HOURS_MAP : String → Option Int
  | "full_time" => some 30
  | "part_time" => some 20
  | "low" => some 0
  | _ => none

/-- Dynamic `answers[key] = value` write for the string-valued answer keys
(the age key is written only by the free-text path, with a number). -/
def setAnswer (a : Answers) (key : String) (v : String) : Answers :=
  match key with
  | "team_role" => { a with team_role := some v }
  | "weekly_availability" => { a with weekly_availability := some v }
  | "start_date" => { a with start_date := some v }
  | "setup" => { a with setup := some v }
  | "sop" => { a with sop := some v }
  | "english_level" => { a with english_level := some v }
  | "student_types" => { a with student_types := some v }
  | _ => a

def checkFailCondition (step : Step) (answer : String) (minWeeklyHours : Int) :
    Option String :=
  match step with
  | Step.q1_team_role =>
    if answer = "no" then
      some "💛 ¡Gracias por tu interés!\nEn este momento buscamos candidatos para un rol fijo de equipo.\n🙏 Te deseamos mucho éxito."
    else none
  | Step.q2_weekly_hours =>
    let hours := (HOURS_MAP answer).getD 0
    if hours < minWeeklyHours then
      some s!"💛 ¡Gracias!\nEn este momento necesitamos un compromiso mínimo de {minWeeklyHours} horas semanales.\n🙏 Te agradecemos tu tiempo."
    else none
  | Step.q4_setup =>
    if answer = "no" then
      some "💛 ¡Gracias!\nPara este rol es necesario contar con internet estable y un espacio tranquilo.\n🙏 Te deseamos lo mejor."
    else none
  | Step.q5_sop =>
    if answer = "no" then
      some "💛 ¡Gracias!\nEs importante seguir el currículum y los SOPs del equipo.\n🙏 Te agradecemos tu interés."
    else none
  | Step.q6_english =>
    if answer = "low" then
      some "💛 ¡Gracias!\nPara este rol necesitamos al menos un nivel intermedio de inglés.\n🙏 Te deseamos mucho éxito."
    else none
  | _ => none

def sendQuestion (chatId : Int) (questionIndex : Nat) : List Effect :=
  let question := QUESTIONS.getD questionIndex emptyQuestion
  if question.buttons.isEmpty then
    [Effect.sendMessage chatId question.text none]
  else
    [Effect.sendMessage chatId question.text (some question.buttons)]

def passMessage (cfg : Config) : String :=
  "🎉 <b>¡Excelente! Has pasado el pre-filtro</b> ✅\n\n" ++
  "🧑‍💼 Siguiente paso: hablar con una persona del equipo para coordinar tu <b>primera entrevista</b>.\n\n" ++
  "👉 Escribe aquí a <b>Maria Camila</b> para continuar:\n" ++
  cfg.MARIA_WHATSAPP_LINK ++ "\n\n" ++
  "💬 <i>Mensaje sugerido:</i>\n" ++
  "\"Hola Maria, pasé el pre-filtro de SpanishVIP. Mi nombre es ___ y mi correo es ___.\""

/-- The finalizer `reportResult`: webhook post, verdict message (the fail reason already is
the full user-facing text), then mark completed, persist, delete. -/
def reportResult (result reason : String) (state : SessionState) (chatId : Int)
    (fromUser : TelegramUser) (cfg : Config) (nowIso : String) : List Effect :=
  let payload : ResultPayload :=
    { applicant_token := state.applicant_token, telegram_chat_id := chatId,
      telegram_username := fromUser.username, result := result, reason := reason,
      answers := state.answers, completed_at := nowIso }
  let userMsg := if result = "pass" then passMessage cfg else reason
  [Effect.webhookPost payload,
   Effect.sendMessage chatId userMsg none,
   Effect.saveSession chatId { state with step := Step.completed },
   Effect.deleteSession chatId]

def handleCallbackQuery (cq : CallbackQuery) (rl : RateLimitState) (now : Int)
    (nowIso : String) (stored : Option SessionState) (cfg : Config) : List Effect :=
  let chatId := cq.fromUser.id
  let data := cq.data.getD ""
  let ackE : List Effect := [Effect.answerCallback cq.id]
  match checkRateLimit rl now with
  | (false, _) =>
    ackE ++ [Effect.sendMessage chatId
      "⏳ Estás enviando mensajes muy rápido. Espera un momento." none]
  | (true, rlNew) =>
    let rlE : List Effect := [Effect.rateLimitPut rlNew]
    match stored with
    | none =>
      ackE ++ rlE ++ [Effect.sendMessage chatId
        "⚠️ Tu sesión ha expirado. Usa el enlace de tu correo para iniciar de nuevo." none]
    | some state =>
      if state.step = Step.completed then
        ackE ++ rlE
      else
        match splitFirst '_' data with
        | none => ackE ++ rlE
        | some (qCode, callbackSuffix) =>
          if qCode ≠ STEP_CODE state.step then
            ackE ++ rlE
          else
            match CALLBACK_VALUE_MAP qCode with
            | none => ackE ++ rlE
            | some codeMap =>
              match List.lookup callbackSuffix codeMap with
              | none => ackE ++ rlE
              | some answerValue =>
                match STEP_ORDER.indexOf? state.step with
                | none => ackE ++ rlE
                | some stepIndex =>
                  let question := QUESTIONS.getD stepIndex emptyQuestion
                  let state1 := { state with
                    answers := setAnswer state.answers question.key answerValue }
                  let minWeeklyHours := resolveMinWeeklyHours cfg.MIN_WEEKLY_HOURS
                  match checkFailCondition state1.step answerValue minWeeklyHours with
                  | some failReason =>
                    ackE ++ rlE ++ reportResult "fail" failReason state1 chatId cq.fromUser cfg nowIso
                  | none =>
                    let nextStepIndex := stepIndex + 1
                    if STEP_ORDER.length ≤ nextStepIndex then
                      ackE ++ rlE ++ reportResult "pass" "" state1 chatId cq.fromUser cfg nowIso
                    else
                      let state2 := { state1 with
                        step := STEP_ORDER.getD nextStepIndex Step.completed }
                      ackE ++ rlE ++ [Effect.saveSession chatId state2]
                        ++ sendQuestion chatId nextStepIndex

def handleStart (chatId : Int) (fromUser : TelegramUser) (token : String)
    (nowIso : String) : List Effect :=
  if token = "" ∨ (jsTrim token).length < 4 then
    [Effect.sendMessage chatId "⚠️ Por favor usa el enlace de aplicación para empezar." none]
  else
    let state : SessionState :=
      { applicant_token := jsTrim token, step := Step.q1_team_role,
        answers := emptyAnswers, started_at := nowIso,
        telegram_username := fromUser.username }
    [Effect.saveSession chatId state] ++ sendQuestion chatId 0

def agePromptMessage : String := "😊 Por favor escribe tu edad en números (ej: 24)."

def ageFailMessage : String :=
  "💛 ¡Gracias!\nEn este momento estamos buscando candidatos <b>menores de 35 años</b> para este rol.\n🙏 Te agradecemos tu tiempo y tu interés en SpanishVIP."

def helpMessage : String :=
  "<b>SpanishVIP — Bot de Pre-filtro</b> 🤖\n\n" ++
  "Este bot realiza un screening rápido para candidatos a profesor.\n\n" ++
  "/start — Iniciar (requiere el enlace de tu correo)\n" ++
  "/restart — Reiniciar el screening\n" ++
  "/help — Mostrar este mensaje"

def noSessionMessage : String :=
  "👋 Para iniciar tu screening, usa el enlace que recibiste por correo.\n\nEscribe /help para más información."

def restartMissingMessage : String :=
  "🔄 No se encontró una sesión activa. Usa el enlace de tu correo para empezar."

def handleMessage (chatId : Int) (fromUser : TelegramUser) (text : Option String)
    (rl : RateLimitState) (now : Int) (nowIso : String)
    (stored : Option SessionState) (cfg : Config) : List Effect :=
  match checkRateLimit rl now with
  | (false, _) =>
    [Effect.sendMessage chatId
      "⏳ Estás enviando mensajes muy rápido. Espera un momento." none]
  | (true, rlNew) =>
    let rlE : List Effect := [Effect.rateLimitPut rlNew]
    let trimmed := jsTrim (text.getD "")
    if jsStartsWith trimmed "/start" then
      let token := (splitWs trimmed).getD 1 ""
      if token = "" then
        rlE ++ [Effect.sendMessage chatId
          "⚠️ Por favor usa el enlace de aplicación para empezar." none]
      else
        rlE ++ handleStart chatId fromUser token nowIso
    else if jsStartsWith trimmed "/restart" then
      match stored with
      | some session =>
        if session.applicant_token ≠ "" then
          rlE ++ handleStart chatId fromUser session.applicant_token nowIso
        else
          rlE ++ [Effect.sendMessage chatId restartMissingMessage none]
      | none => rlE ++ [Effect.sendMessage chatId restartMissingMessage none]
    else if jsStartsWith trimmed "/help" then
      rlE ++ [Effect.sendMessage chatId helpMessage none]
    else
      match stored with
      | some session =>
        if session.step ≠ Step.completed then
          if session.step = Step.q7_age then
            match parseIntJS trimmed with
            | none => rlE ++ [Effect.sendMessage chatId agePromptMessage none]
            | some parsed =>
              if parsed < 10 ∨ parsed > 80 then
                rlE ++ [Effect.sendMessage chatId agePromptMessage none]
              else
                let session1 := { session with
                  answers := { session.answers with age := some parsed } }
                if 35 ≤ parsed then
                  rlE ++ reportResult "fail" ageFailMessage session1 chatId fromUser cfg nowIso
                else
                  let nextStepIndex := ((STEP_ORDER.indexOf? Step.q7_age).getD 0) + 1
                  let session2 := { session1 with
                    step := STEP_ORDER.getD nextStepIndex Step.completed }
                  rlE ++ [Effect.saveSession chatId session2]
                    ++ sendQuestion chatId nextStepIndex
          else
            rlE ++ [Effect.sendMessage chatId
              "👆 Por favor usa los <b>botones</b> para responder." none]
        else
          rlE ++ [Effect.sendMessage chatId noSessionMessage none]
      | none => rlE ++ [Effect.sendMessage chatId noSessionMessage none]

def applyEffects (σ : Int → Option SessionState) : List Effect → Int → Option SessionState
  | [], i => σ i
  | Effect.saveSession cid s :: rest, i =>
    applyEffects (fun j => if j = cid then some s else σ j) rest i
  | Effect.deleteSession cid :: rest, i =>
    applyEffects (fun j => if j = cid then none else σ j) rest i
  | _ :: rest, i => applyEffects σ rest i

end V2

/-- The composite JavaScript read
`CALLBACK_VALUE_MAP[qPrefix]` followed by `prefixMap[callbackSuffix]` in the
extended variant: `none` when the question map itself is absent (the handler
drops the event at `if (!prefixMap)`), otherwise the JavaScript read of the
suffix on that map. -/
def callbackPropGet (qCode callbackSuffix : String) : Option JsProp :=
  (V2.CALLBACK_VALUE_MAP qCode).map (fun cm => jsPropGet cm callbackSuffix)

/-! ## Claim theorems -/

theorem jsPropGet_undef_lookup {m : List (String × String)} {key : String}
    (h : jsPropGet m key = JsProp.undef) : List.lookup key m = none := by
  unfold jsPropGet at h
  cases hl : List.lookup key m with
  | none => rfl
  | some v =>
    rw [hl] at h
    exact absurd h (by simp)

/-- C2: when the count of stored timestamps inside the trailing 10-second
window is already at the ceiling of 5, `checkRateLimit` returns not-allowed
and leaves the stored window untouched; otherwise it stores the in-window
timestamps with the current time appended and returns allowed.  Consequently,
over any chronologically ordered sequence of events for one identity
(starting from an empty window), at most 5 events are admitted inside any
trailing 10-second window. -/
theorem c2_rate_limiter_spec :
    (∀ (s : RateLimitState) (now : Int),
      RATE_LIMIT_MAX_ACTIONS ≤
          (s.timestamps.filter (fun t => now - t < RATE_LIMIT_WINDOW_MS)).length →
        checkRateLimit s now = (false, s)) ∧
    (∀ (s : RateLimitState) (now : Int),
      (s.timestamps.filter (fun t => now - t < RATE_LIMIT_WINDOW_MS)).length <
          RATE_LIMIT_MAX_ACTIONS →
        checkRateLimit s now =
          (true, ⟨(s.timestamps.filter (fun t => now - t < RATE_LIMIT_WINDOW_MS)) ++ [now]⟩)) ∧
    (∀ (es : List Int) (T : Int), es.Sorted (· ≤ ·) →
      cntW T (runRateLimiter ⟨[]⟩ es) ≤ RATE_LIMIT_MAX_ACTIONS) := by
  refine ⟨?_, ?_, ?_⟩
  · intro s now h
    simp only [checkRateLimit, if_pos h]
  · intro s now h
    simp only [checkRateLimit, if_neg (Nat.not_le_of_lt h)]
  · intro es T hsort
    have hb := runRateLimiter_window_bound T es ⟨[]⟩ hsort (by intro t ht; simp at ht)
    simpa [cntW] using hb

/-- C2 witness: a full window of 5 rejects without mutation; an empty window
admits and records; a 7-event burst admits at most 5 in any 10-second window. -/
theorem c2_rate_limiter_spec_witness :
    checkRateLimit ⟨[0, 1, 2, 3, 4]⟩ 5 = (false, ⟨[0, 1, 2, 3, 4]⟩) ∧
    checkRateLimit ⟨[]⟩ 0 = (true, ⟨[0]⟩) ∧
    cntW 9 (runRateLimiter ⟨[]⟩ [0, 1, 2, 3, 4, 5, 6]) ≤ RATE_LIMIT_MAX_ACTIONS :=
  ⟨c2_rate_limiter_spec.1 ⟨[0, 1, 2, 3, 4]⟩ 5 (by decide),
   c2_rate_limiter_spec.2.1 ⟨[]⟩ 0 (by decide),
   c2_rate_limiter_spec.2.2 [0, 1, 2, 3, 4, 5, 6] 9 (by decide)⟩

theorem v1_q2_fail_iff (a : String) (m : Int) :
    (V1.checkFailCondition V1.Step.q2_weekly_hours a m).isSome
      ↔ (V1.HOURS_MAP a).getD 0 < m := by
  simp only [V1.checkFailCondition]
  by_cases h : (V1.HOURS_MAP a).getD 0 < m <;> simp [h]

theorem v2_q2_fail_iff (a : String) (m : Int) :
    (V2.checkFailCondition V2.Step.q2_weekly_hours a m).isSome
      ↔ (V2.HOURS_MAP a).getD 0 < m := by
  simp only [V2.checkFailCondition]
  by_cases h : (V2.HOURS_MAP a).getD 0 < m <;> simp [h]

/-- C6: in both variants the weekly-availability fail predicate triggers
exactly when the answer's mapped hours are strictly below the configured
minimum `m`; in particular mapped hours equal to `m` pass and mapped hours
equal to `m - 1` fail. -/
theorem c6_weekly_hours_boundary (m : Int) (a : String) :
    ((V1.checkFailCondition V1.Step.q2_weekly_hours a m).isSome
      ↔ (V1.HOURS_MAP a).getD 0 < m) ∧
    ((V2.checkFailCondition V2.Step.q2_weekly_hours a m).isSome
      ↔ (V2.HOURS_MAP a).getD 0 < m) ∧
    ((V1.HOURS_MAP a).getD 0 = m →
      V1.checkFailCondition V1.Step.q2_weekly_hours a m = none) ∧
    ((V2.HOURS_MAP a).getD 0 = m →
      V2.checkFailCondition V2.Step.q2_weekly_hours a m = none) ∧
    ((V1.HOURS_MAP a).getD 0 = m - 1 →
      (V1.checkFailCondition V1.Step.q2_weekly_hours a m).isSome = true) ∧
    ((V2.HOURS_MAP a).getD 0 = m - 1 →
      (V2.checkFailCondition V2.Step.q2_weekly_hours a m).isSome = true) := by
  refine ⟨v1_q2_fail_iff a m, v2_q2_fail_iff a m, ?_, ?_, ?_, ?_⟩
  · intro h
    simp only [V1.checkFailCondition, h]
    simp
  · intro h
    simp only [V2.checkFailCondition, h]
    simp
  · intro h
    exact (v1_q2_fail_iff a m).mpr (by omega)
  · intro h
    exact (v2_q2_fail_iff a m).mpr (by omega)

/-- C6 witness: with minimum 20, part_time (20h) passes; with minimum 21,
part_time (20h = 21 - 1) fails; same in the extended variant. -/
theorem c6_weekly_hours_boundary_witness :
    V1.checkFailCondition V1.Step.q2_weekly_hours "part_time" 20 = none ∧
    (V1.checkFailCondition V1.Step.q2_weekly_hours "part_time" 21).isSome = true ∧
    V2.checkFailCondition V2.Step.q2_weekly_hours "part_time" 20 = none ∧
    (V2.checkFailCondition V2.Step.q2_weekly_hours "part_time" 21).isSome = true :=
  ⟨(c6_weekly_hours_boundary 20 "part_time").2.2.1 (by decide),
   (c6_weekly_hours_boundary 21 "part_time").2.2.2.2.1 (by decide),
   (c6_weekly_hours_boundary 20 "part_time").2.2.2.1 (by decide),
   (c6_weekly_hours_boundary 21 "part_time").2.2.2.2.2 (by decide)⟩

/-- C9: the effective minimum weekly-hours threshold is 15 whenever the
configuration value is absent, fails to parse, or parses to 0 (`0` is falsy
in `parseInt(...) || 15`); hence a minimum of 0 hours can never be
configured. -/
theorem c9_min_hours_default :
    resolveMinWeeklyHours none = 15 ∧
    (∀ s, parseIntJS s = none → resolveMinWeeklyHours (some s) = 15) ∧
    (∀ s, parseIntJS s = some 0 → resolveMinWeeklyHours (some s) = 15) ∧
    (∀ c, resolveMinWeeklyHours c ≠ 0) := by
  refine ⟨by decide, ?_, ?_, ?_⟩
  · intro s h
    simp [resolveMinWeeklyHours, h]
  · intro s h
    simp [resolveMinWeeklyHours, h]
  · intro c
    cases c with
    | none => decide
    | some s =>
      simp only [resolveMinWeeklyHours, Option.getD_some]
      cases h : parseIntJS s with
      | none => simp
      | some n =>
        by_cases hn : n = 0
        · simp [hn]
        · simp only [if_neg hn]
          exact hn

/-- C9 witness: a non-numeric value and a literal "0" both resolve to 15. -/
theorem c9_min_hours_default_witness :
    resolveMinWeeklyHours (some "abc") = 15 ∧ resolveMinWeeklyHours (some "0") = 15 :=
  ⟨c9_min_hours_default.2.1 "abc" (by decide),
   c9_min_hours_default.2.2.1 "0" (by decide)⟩

/-- Away from `Object.prototype` property names the JavaScript-faithful q2
fail condition coincides with the basic variant's own-key
`checkFailCondition` model. -/
theorem q2FailTriggersJS_agrees_v1 (a : String) (m : Int)
    (hnp : a ∉ OBJECT_PROTOTYPE_KEYS) :
    (q2FailTriggersJS V1.HOURS_MAP a m = true ↔
      (V1.checkFailCondition V1.Step.q2_weekly_hours a m).isSome) := by
  rw [v1_q2_fail_iff]
  cases h : V1.HOURS_MAP a with
  | none => simp [q2FailTriggersJS, hoursReadJS, jsHoursLt, h, hnp]
  | some n => simp [q2FailTriggersJS, hoursReadJS, jsHoursLt, h]

/-- Same agreement for the extended variant's hours map. -/
theorem q2FailTriggersJS_agrees_v2 (a : String) (m : Int)
    (hnp : a ∉ OBJECT_PROTOTYPE_KEYS) :
    (q2FailTriggersJS V2.HOURS_MAP a m = true ↔
      (V2.checkFailCondition V2.Step.q2_weekly_hours a m).isSome) := by
  rw [v2_q2_fail_iff]
  cases h : V2.HOURS_MAP a with
  | none => simp [q2FailTriggersJS, hoursReadJS, jsHoursLt, h, hnp]
  | some n => simp [q2FailTriggersJS, hoursReadJS, jsHoursLt, h]

/-- C10 counterexample: the answer "__proto__" is not a key of either
variant's hours map and the default minimum 15 is positive, yet the
JavaScript-faithful weekly-availability fail condition does not trigger:
`HOURS_MAP["__proto__"]` is the truthy inherited prototype, `?? 0` does not
apply, and the object-versus-number comparison is false — the answer passes
instead of failing.  (The answer is reachable: the basic variant records the
raw suffix of the callback data "q2:__proto__" as the canonical answer.) -/
theorem c10_unknown_availability_counterexample :
    V1.HOURS_MAP "__proto__" = none ∧
    V2.HOURS_MAP "__proto__" = none ∧
    (0 : Int) < 15 ∧
    q2FailTriggersJS V1.HOURS_MAP "__proto__" 15 = false ∧
    q2FailTriggersJS V2.HOURS_MAP "__proto__" 15 = false :=
  ⟨rfl, rfl, by decide, by decide, by decide⟩

/-- C10 (amended): an availability answer that is neither a key of the hours
map nor an `Object.prototype` property name reads as `undefined`, is
defaulted to 0 mapped hours by `?? 0`, and trips the fail condition for
every positive configured minimum; an answer naming an inherited
`Object.prototype` property (e.g. "__proto__") instead reads as a truthy
non-number, the default does not apply, and the condition never triggers —
in both variants. -/
theorem c10_unknown_availability_amended (a : String) (m : Int)
    (h1 : V1.HOURS_MAP a = none) (h2 : V2.HOURS_MAP a = none) :
    (a ∉ OBJECT_PROTOTYPE_KEYS → 0 < m →
      q2FailTriggersJS V1.HOURS_MAP a m = true ∧
      q2FailTriggersJS V2.HOURS_MAP a m = true) ∧
    (a ∈ OBJECT_PROTOTYPE_KEYS →
      q2FailTriggersJS V1.HOURS_MAP a m = false ∧
      q2FailTriggersJS V2.HOURS_MAP a m = false) := by
  constructor
  · intro hnp hm
    constructor <;>
      simp [q2FailTriggersJS, hoursReadJS, jsHoursLt, h1, h2, hnp, hm]
  · intro hp
    constructor <;>
      simp [q2FailTriggersJS, hoursReadJS, jsHoursLt, h1, h2, hp]

/-- C10 witness: "banana" (read `undefined`, defaulted to 0) fails under the
default minimum 15, while "__proto__" (truthy inherited read) passes, in
both variants. -/
theorem c10_unknown_availability_amended_witness :
    (q2FailTriggersJS V1.HOURS_MAP "banana" 15 = true ∧
     q2FailTriggersJS V2.HOURS_MAP "banana" 15 = true) ∧
    (q2FailTriggersJS V1.HOURS_MAP "__proto__" 15 = false ∧
     q2FailTriggersJS V2.HOURS_MAP "__proto__" 15 = false) :=
  ⟨(c10_unknown_availability_amended "banana" 15 rfl rfl).1
      (by decide) (by decide),
   (c10_unknown_availability_amended "__proto__" 15 rfl rfl).2
      (by decide)⟩

/-- C8: in both variants `reportResult` performs, in order, the webhook post,
the verdict message, the save of the session marked `completed`, and only
then the delete.  Replaying any prefix of those effects (a crash at any
point) leaves the stored session either untouched, or in the terminal
completed state, or absent — never in an active step; in particular a crash
right between the save and the delete leaves the completed session stored. -/
theorem c8_completed_persisted_before_delete :
    (∀ (result reason : String) (state : V1.SessionState) (chatId : Int)
        (fromUser : TelegramUser) (cfg : V1.Config) (nowIso : String),
      V1.reportResult result reason state chatId fromUser cfg nowIso =
        [V1.Effect.webhookPost
          { applicant_token := state.applicant_token, telegram_chat_id := chatId,
            telegram_username := fromUser.username, result := result, reason := reason,
            answers := state.answers, completed_at := nowIso },
         V1.Effect.sendMessage chatId
           (if result = "pass" then V1.passMessage cfg else V1.failMessage reason) none,
         V1.Effect.saveSession chatId { state with step := V1.Step.completed },
         V1.Effect.deleteSession chatId] ∧
      (∀ σ : Int → Option V1.SessionState,
        V1.applyEffects σ
            ((V1.reportResult result reason state chatId fromUser cfg nowIso).take 3) chatId
          = some { state with step := V1.Step.completed }) ∧
      (∀ (σ : Int → Option V1.SessionState) (k : Nat),
        V1.applyEffects σ
            ((V1.reportResult result reason state chatId fromUser cfg nowIso).take k) chatId
          = σ chatId ∨
        V1.applyEffects σ
            ((V1.reportResult result reason state chatId fromUser cfg nowIso).take k) chatId
          = some { state with step := V1.Step.completed } ∨
        V1.applyEffects σ
            ((V1.reportResult result reason state chatId fromUser cfg nowIso).take k) chatId
          = none)) ∧
    (∀ (result reason : String) (state : V2.SessionState) (chatId : Int)
        (fromUser : TelegramUser) (cfg : V2.Config) (nowIso : String),
      V2.reportResult result reason state chatId fromUser cfg nowIso =
        [V2.Effect.webhookPost
          { applicant_token := state.applicant_token, telegram_chat_id := chatId,
            telegram_username := fromUser.username, result := result, reason := reason,
            answers := state.answers, completed_at := nowIso },
         V2.Effect.sendMessage chatId
           (if result = "pass" then V2.passMessage cfg else reason) none,
         V2.Effect.saveSession chatId { state with step := V2.Step.completed },
         V2.Effect.deleteSession chatId] ∧
      (∀ σ : Int → Option V2.SessionState,
        V2.applyEffects σ
            ((V2.reportResult result reason state chatId fromUser cfg nowIso).take 3) chatId
          = some { state with step := V2.Step.completed }) ∧
      (∀ (σ : Int → Option V2.SessionState) (k : Nat),
        V2.applyEffects σ
            ((V2.reportResult result reason state chatId fromUser cfg nowIso).take k) chatId
          = σ chatId ∨
        V2.applyEffects σ
            ((V2.reportResult result reason state chatId fromUser cfg nowIso).take k) chatId
          = some { state with step := V2.Step.completed } ∨
        V2.applyEffects σ
            ((V2.reportResult result reason state chatId fromUser cfg nowIso).take k) chatId
          = none)) := by
  constructor
  · intro result reason state chatId fromUser cfg nowIso
    refine ⟨rfl, ?_, ?_⟩
    · intro σ
      simp [V1.reportResult, V1.applyEffects]
    · intro σ k
      rcases k with _ | _ | _ | _ | k
      · left
        simp [V1.reportResult, V1.applyEffects]
      · left
        simp [V1.reportResult, V1.applyEffects]
      · left
        simp [V1.reportResult, V1.applyEffects]
      · right
        left
        simp [V1.reportResult, V1.applyEffects]
      · right
        right
        simp [V1.reportResult, V1.applyEffects, List.take_succ_cons]
  · intro result reason state chatId fromUser cfg nowIso
    refine ⟨rfl, ?_, ?_⟩
    · intro σ
      simp [V2.reportResult, V2.applyEffects]
    · intro σ k
      rcases k with _ | _ | _ | _ | k
      · left
        simp [V2.reportResult, V2.applyEffects]
      · left
        simp [V2.reportResult, V2.applyEffects]
      · left
        simp [V2.reportResult, V2.applyEffects]
      · right
        left
        simp [V2.reportResult, V2.applyEffects]
      · right
        right
        simp [V2.reportResult, V2.applyEffects, List.take_succ_cons]

/-- C3: in both variants, a button-press event that passes the rate limiter
and finds a stored session whose step is the terminal `completed` marker is a
no-op: the handler emits only the callback acknowledgment and the rate
limiter's own bookkeeping write — no session write or delete, no webhook
post, no user-facing message.  Delivering the same event again therefore
again produces no delivery call and no message. -/
theorem c3_completed_session_noop :
    (∀ (cq : CallbackQuery) (rl rlNew : RateLimitState) (now : Int) (nowIso : String)
        (state : V1.SessionState) (cfg : V1.Config),
      checkRateLimit rl now = (true, rlNew) →
      state.step = V1.Step.completed →
      V1.handleCallbackQuery cq rl now nowIso (some state) cfg =
        [V1.Effect.answerCallback cq.id, V1.Effect.rateLimitPut rlNew]) ∧
    (∀ (cq : CallbackQuery) (rl rlNew : RateLimitState) (now : Int) (nowIso : String)
        (state : V2.SessionState) (cfg : V2.Config),
      checkRateLimit rl now = (true, rlNew) →
      state.step = V2.Step.completed →
      V2.handleCallbackQuery cq rl now nowIso (some state) cfg =
        [V2.Effect.answerCallback cq.id, V2.Effect.rateLimitPut rlNew]) := by
  constructor
  · intro cq rl rlNew now nowIso state cfg hadm hstep
    unfold V1.handleCallbackQuery
    rw [hadm]
    simp [hstep]
  · intro cq rl rlNew now nowIso state cfg hadm hstep
    unfold V2.handleCallbackQuery
    rw [hadm]
    simp [hstep]

/-- C3 witness: a concrete press on a completed session in each variant. -/
theorem c3_completed_session_noop_witness :
    V1.handleCallbackQuery ⟨"cb1", ⟨7, none, "A"⟩, some "q1:yes"⟩ ⟨[]⟩ 0 "t"
        (some ⟨"tok12345", V1.Step.completed, V1.emptyAnswers, "t0", none⟩)
        ⟨none, "L"⟩ =
      [V1.Effect.answerCallback "cb1", V1.Effect.rateLimitPut ⟨[0]⟩] ∧
    V2.handleCallbackQuery ⟨"cb2", ⟨7, none, "A"⟩, some "Q1_YES"⟩ ⟨[]⟩ 0 "t"
        (some ⟨"tok12345", V2.Step.completed, V2.emptyAnswers, "t0", none⟩)
        ⟨none, "L"⟩ =
      [V2.Effect.answerCallback "cb2", V2.Effect.rateLimitPut ⟨[0]⟩] :=
  ⟨c3_completed_session_noop.1 ⟨"cb1", ⟨7, none, "A"⟩, some "q1:yes"⟩ ⟨[]⟩ ⟨[0]⟩ 0 "t"
      ⟨"tok12345", V1.Step.completed, V1.emptyAnswers, "t0", none⟩ ⟨none, "L"⟩
      (by decide) rfl,
   c3_completed_session_noop.2 ⟨"cb2", ⟨7, none, "A"⟩, some "Q1_YES"⟩ ⟨[]⟩ ⟨[0]⟩ 0 "t"
      ⟨"tok12345", V2.Step.completed, V2.emptyAnswers, "t0", none⟩ ⟨none, "L"⟩
      (by decide) rfl⟩

/-- C5: in both variants, a button-press whose step code (the part before the
separator) does not match the session's current step is silently discarded:
beyond the acknowledgment and the rate limiter's bookkeeping write, no
effects are produced — no session mutation and no message. -/
theorem c5_stale_step_code_discarded :
    (∀ (cq : CallbackQuery) (rl rlNew : RateLimitState) (now : Int) (nowIso : String)
        (state : V1.SessionState) (cfg : V1.Config) (qCode answerValue : String),
      checkRateLimit rl now = (true, rlNew) →
      state.step ≠ V1.Step.completed →
      splitFirst ':' (cq.data.getD "") = some (qCode, answerValue) →
      qCode ≠ V1.STEP_CODE state.step →
      V1.handleCallbackQuery cq rl now nowIso (some state) cfg =
        [V1.Effect.answerCallback cq.id, V1.Effect.rateLimitPut rlNew]) ∧
    (∀ (cq : CallbackQuery) (rl rlNew : RateLimitState) (now : Int) (nowIso : String)
        (state : V2.SessionState) (cfg : V2.Config) (qCode callbackSuffix : String),
      checkRateLimit rl now = (true, rlNew) →
      state.step ≠ V2.Step.completed →
      splitFirst '_' (cq.data.getD "") = some (qCode, callbackSuffix) →
      qCode ≠ V2.STEP_CODE state.step →
      V2.handleCallbackQuery cq rl now nowIso (some state) cfg =
        [V2.Effect.answerCallback cq.id, V2.Effect.rateLimitPut rlNew]) := by
  constructor
  · intro cq rl rlNew now nowIso state cfg qCode answerValue hadm hstep hsplit hne
    unfold V1.handleCallbackQuery
    rw [hadm]
    simp [hstep, hsplit, hne]
  · intro cq rl rlNew now nowIso state cfg qCode callbackSuffix hadm hstep hsplit hne
    unfold V2.handleCallbackQuery
    rw [hadm]
    simp [hstep, hsplit, hne]

/-- C5 witness: a q3 button pressed while each variant's session is still on
the first step is dropped with no session write and no message. -/
theorem c5_stale_step_code_discarded_witness :
    V1.handleCallbackQuery ⟨"cb3", ⟨7, none, "A"⟩, some "q3:immediately"⟩ ⟨[]⟩ 0 "t"
        (some ⟨"tok12345", V1.Step.q1_team_role, V1.emptyAnswers, "t0", none⟩)
        ⟨none, "L"⟩ =
      [V1.Effect.answerCallback "cb3", V1.Effect.rateLimitPut ⟨[0]⟩] ∧
    V2.handleCallbackQuery ⟨"cb4", ⟨7, none, "A"⟩, some "Q3_NOW"⟩ ⟨[]⟩ 0 "t"
        (some ⟨"tok12345", V2.Step.q1_team_role, V2.emptyAnswers, "t0", none⟩)
        ⟨none, "L"⟩ =
      [V2.Effect.answerCallback "cb4", V2.Effect.rateLimitPut ⟨[0]⟩] :=
  ⟨c5_stale_step_code_discarded.1 ⟨"cb3", ⟨7, none, "A"⟩, some "q3:immediately"⟩ ⟨[]⟩ ⟨[0]⟩
      0 "t" ⟨"tok12345", V1.Step.q1_team_role, V1.emptyAnswers, "t0", none⟩ ⟨none, "L"⟩
      "q3" "immediately" (by decide) (by decide) (by decide) (by decide),
   c5_stale_step_code_discarded.2 ⟨"cb4", ⟨7, none, "A"⟩, some "Q3_NOW"⟩ ⟨[]⟩ ⟨[0]⟩
      0 "t" ⟨"tok12345", V2.Step.q1_team_role, V2.emptyAnswers, "t0", none⟩ ⟨none, "L"⟩
      "Q3" "NOW" (by decide) (by decide) (by decide) (by decide)⟩

/-- C1 counterexample (basic 5-question variant): the trigger code
"q1:banana" contains the separator, its step code "q1" matches the session's
current step, and the full code is not among the catalog's button codes for
that step — yet the event is NOT dropped: the unknown value "banana" is
recorded as the answer, the session advances to step 2 and the next question
is sent.  The basic variant has no per-step code mapping at all. -/
theorem c1_unmapped_code_counterexample :
    splitFirst ':' "q1:banana" = some ("q1", "banana") ∧
    "q1" = V1.STEP_CODE V1.Step.q1_team_role ∧
    "q1:banana" ∉ V1.catalogCodes 0 ∧
    V1.handleCallbackQuery ⟨"cb5", ⟨7, none, "A"⟩, some "q1:banana"⟩ ⟨[]⟩ 0 "t"
        (some ⟨"tok12345", V1.Step.q1_team_role, V1.emptyAnswers, "t0", none⟩)
        ⟨none, "L"⟩ =
      [V1.Effect.answerCallback "cb5", V1.Effect.rateLimitPut ⟨[0]⟩,
       V1.Effect.saveSession 7
         ⟨"tok12345", V1.Step.q2_weekly_hours,
          { V1.emptyAnswers with team_role := some "banana" }, "t0", none⟩,
       V1.Effect.sendMessage 7 ((V1.QUESTIONS.getD 1 emptyQuestion).text)
         (some (V1.QUESTIONS.getD 1 emptyQuestion).buttons)] :=
  ⟨by decide, by decide, by decide, by decide⟩

/-- C1 (amended): in the extended 8-question variant, a button-press whose
step code matches the current step and whose suffix reads as `undefined` from
the step's `CALLBACK_VALUE_MAP` entry under JavaScript property semantics —
that is, the suffix is neither an own key of the map nor an
`Object.prototype` property name — is dropped with no session mutation, no
result delivery and no user-visible reply.  (Suffixes naming inherited
`Object.prototype` properties, such as "__proto__", read as truthy values in
the source and are accepted and recorded, not dropped; and the basic variant
has no code mapping at all — see `c1_unmapped_code_counterexample`.) -/
theorem c1_unmapped_code_dropped_extended
    (cq : CallbackQuery) (rl rlNew : RateLimitState) (now : Int) (nowIso : String)
    (state : V2.SessionState) (cfg : V2.Config) (qCode callbackSuffix : String)
    (hadm : checkRateLimit rl now = (true, rlNew))
    (hstep : state.step ≠ V2.Step.completed)
    (hsplit : splitFirst '_' (cq.data.getD "") = some (qCode, callbackSuffix))
    (hmatch : qCode = V2.STEP_CODE state.step)
    (hundef : (callbackPropGet qCode callbackSuffix).getD JsProp.undef = JsProp.undef) :
    V2.handleCallbackQuery cq rl now nowIso (some state) cfg =
      [V2.Effect.answerCallback cq.id, V2.Effect.rateLimitPut rlNew] := by
  subst hmatch
  unfold V2.handleCallbackQuery
  rw [hadm]
  cases hm : V2.CALLBACK_VALUE_MAP (V2.STEP_CODE state.step) with
  | none => simp [hstep, hsplit, hm]
  | some cm =>
    unfold callbackPropGet at hundef
    rw [hm] at hundef
    have hget : jsPropGet cm callbackSuffix = JsProp.undef := hundef
    have hlk : List.lookup callbackSuffix cm = none := jsPropGet_undef_lookup hget
    simp [hstep, hsplit, hm, hlk]

/-- C1 witness: in the extended variant, the tampered code "Q1_MAYBE" on the
first step (suffix absent from the Q1 map and not an `Object.prototype`
property name, so its JavaScript read is `undefined`) is dropped silently. -/
theorem c1_unmapped_code_dropped_extended_witness :
    V2.handleCallbackQuery ⟨"cb6", ⟨7, none, "A"⟩, some "Q1_MAYBE"⟩ ⟨[]⟩ 0 "t"
        (some ⟨"tok12345", V2.Step.q1_team_role, V2.emptyAnswers, "t0", none⟩)
        ⟨none, "L"⟩ =
      [V2.Effect.answerCallback "cb6", V2.Effect.rateLimitPut ⟨[0]⟩] :=
  c1_unmapped_code_dropped_extended ⟨"cb6", ⟨7, none, "A"⟩, some "Q1_MAYBE"⟩ ⟨[]⟩ ⟨[0]⟩
    0 "t" ⟨"tok12345", V2.Step.q1_team_role, V2.emptyAnswers, "t0", none⟩ ⟨none, "L"⟩
    "Q1" "MAYBE" (by decide) (by decide) (by decide) (by decide) (by decide)

/-- C7: a free-text event on the age step whose text does not parse as an
integer or parses below 10 or above 80 only re-prompts: no session write, no
answer recorded, no result delivery. -/
theorem c7_age_invalid_reprompts
    (chatId : Int) (fromUser : TelegramUser) (text : Option String)
    (rl rlNew : RateLimitState) (now : Int) (nowIso : String)
    (session : V2.SessionState) (cfg : V2.Config)
    (hadm : checkRateLimit rl now = (true, rlNew))
    (hstep : session.step = V2.Step.q7_age)
    (h1 : jsStartsWith (jsTrim (text.getD "")) "/start" = false)
    (h2 : jsStartsWith (jsTrim (text.getD "")) "/restart" = false)
    (h3 : jsStartsWith (jsTrim (text.getD "")) "/help" = false)
    (hbad : parseIntJS (jsTrim (text.getD "")) = none ∨
      ∃ n, parseIntJS (jsTrim (text.getD "")) = some n ∧ (n < 10 ∨ n > 80)) :
    V2.handleMessage chatId fromUser text rl now nowIso (some session) cfg =
      [V2.Effect.rateLimitPut rlNew,
       V2.Effect.sendMessage chatId V2.agePromptMessage none] := by
  unfold V2.handleMessage
  rw [hadm]
  rcases hbad with hnone | ⟨n, hsome, hbounds⟩
  · simp [h1, h2, h3, hstep, hnone]
  · simp [h1, h2, h3, hstep, hsome, hbounds]

/-- C7 witness: the text "200" on the age step re-prompts and leaves the
session untouched. -/
theorem c7_age_invalid_reprompts_witness :
    V2.handleMessage 7 ⟨7, none, "A"⟩ (some "200") ⟨[]⟩ 0 "t"
        (some ⟨"tok12345", V2.Step.q7_age, V2.emptyAnswers, "t0", none⟩)
        ⟨none, "L"⟩ =
      [V2.Effect.rateLimitPut ⟨[0]⟩,
       V2.Effect.sendMessage 7 V2.agePromptMessage none] :=
  c7_age_invalid_reprompts 7 ⟨7, none, "A"⟩ (some "200") ⟨[]⟩ ⟨[0]⟩ 0 "t"
    ⟨"tok12345", V2.Step.q7_age, V2.emptyAnswers, "t0", none⟩ ⟨none, "L"⟩
    (by decide) rfl (by decide) (by decide) (by decide)
    (Or.inr ⟨200, by decide, Or.inr (by decide)⟩)

/-- C4 counterexample: the extended worker's configuration has no maximum-age
variable at all, yet an in-bounds age of 40 on the age step produces a fail
verdict (webhook post with result "fail", fail message, completion, delete)
instead of the "no age gate by default" behavior the claim describes. -/
theorem c4_age_gate_counterexample :
    V2.handleMessage 7 ⟨7, none, "A"⟩ (some "40") ⟨[]⟩ 0 "t"
        (some ⟨"tok12345", V2.Step.q7_age, V2.emptyAnswers, "t0", none⟩)
        ⟨none, "L"⟩ =
      [V2.Effect.rateLimitPut ⟨[0]⟩,
       V2.Effect.webhookPost
         { applicant_token := "tok12345", telegram_chat_id := 7,
           telegram_username := none, result := "fail",
           reason := V2.ageFailMessage,
           answers := { V2.emptyAnswers with age := some 40 },
           completed_at := "t" },
       V2.Effect.sendMessage 7 V2.ageFailMessage none,
       V2.Effect.saveSession 7
         ⟨"tok12345", V2.Step.completed,
          { V2.emptyAnswers with age := some 40 }, "t0", none⟩,
       V2.Effect.deleteSession 7] := by
  decide

/-- C4 (amended): the age step's fail threshold is the hard-coded constant
35, independent of all configuration: an in-bounds age of at least 35 ends
the session with a fail verdict, an in-bounds age below 35 records the answer
and advances to the student-types question — for every configuration. -/
theorem c4_age_threshold_hardcoded
    (chatId : Int) (fromUser : TelegramUser) (text : Option String)
    (rl rlNew : RateLimitState) (now : Int) (nowIso : String)
    (session : V2.SessionState) (cfg : V2.Config) (n : Int)
    (hadm : checkRateLimit rl now = (true, rlNew))
    (hstep : session.step = V2.Step.q7_age)
    (h1 : jsStartsWith (jsTrim (text.getD "")) "/start" = false)
    (h2 : jsStartsWith (jsTrim (text.getD "")) "/restart" = false)
    (h3 : jsStartsWith (jsTrim (text.getD "")) "/help" = false)
    (hparse : parseIntJS (jsTrim (text.getD "")) = some n)
    (hlo : 10 ≤ n) (hhi : n ≤ 80) :
    (35 ≤ n →
      V2.handleMessage chatId fromUser text rl now nowIso (some session) cfg =
        [V2.Effect.rateLimitPut rlNew] ++
          V2.reportResult "fail" V2.ageFailMessage
            { session with answers := { session.answers with age := some n } }
            chatId fromUser cfg nowIso) ∧
    (n < 35 →
      V2.handleMessage chatId fromUser text rl now nowIso (some session) cfg =
        [V2.Effect.rateLimitPut rlNew,
         V2.Effect.saveSession chatId
           { session with
             answers := { session.answers with age := some n },
             step := V2.Step.q8_student_types }] ++
          V2.sendQuestion chatId 7) := by
  have hin : ¬(n < 10 ∨ n > 80) := by omega
  have hidx : ((V2.STEP_ORDER.indexOf? V2.Step.q7_age).getD 0) + 1 = 7 := by decide
  constructor
  · intro h35
    unfold V2.handleMessage
    rw [hadm]
    simp [h1, h2, h3, hstep, hparse, hin, h35]
  · intro h35
    have h35x : ¬(35 ≤ n) := by omega
    unfold V2.handleMessage
    rw [hadm]
    simp [h1, h2, h3, hstep, hparse, hin, h35x, hidx]
    decide

/-- C4 witness: with no configuration, age 40 fails and age 34 advances to
the student-types question. -/
theorem c4_age_threshold_hardcoded_witness :
    (V2.handleMessage 7 ⟨7, none, "A"⟩ (some "40") ⟨[]⟩ 0 "t"
        (some ⟨"tok12345", V2.Step.q7_age, V2.emptyAnswers, "t0", none⟩)
        ⟨none, "L"⟩ =
      [V2.Effect.rateLimitPut ⟨[0]⟩] ++
        V2.reportResult "fail" V2.ageFailMessage
          ⟨"tok12345", V2.Step.q7_age, { V2.emptyAnswers with age := some 40 }, "t0", none⟩
          7 ⟨7, none, "A"⟩ ⟨none, "L"⟩ "t") ∧
    (V2.handleMessage 7 ⟨7, none, "A"⟩ (some "34") ⟨[]⟩ 0 "t"
        (some ⟨"tok12345", V2.Step.q7_age, V2.emptyAnswers, "t0", none⟩)
        ⟨none, "L"⟩ =
      [V2.Effect.rateLimitPut ⟨[0]⟩,
       V2.Effect.saveSession 7
         ⟨"tok12345", V2.Step.q8_student_types,
          { V2.emptyAnswers with age := some 34 }, "t0", none⟩] ++
        V2.sendQuestion 7 7) :=
  ⟨(c4_age_threshold_hardcoded 7 ⟨7, none, "A"⟩ (some "40") ⟨[]⟩ ⟨[0]⟩ 0 "t"
      ⟨"tok12345", V2.Step.q7_age, V2.emptyAnswers, "t0", none⟩ ⟨none, "L"⟩ 40
      (by decide) rfl (by decide) (by decide) (by decide) (by decide)
      (by decide) (by decide)).1 (by decide),
   (c4_age_threshold_hardcoded 7 ⟨7, none, "A"⟩ (some "34") ⟨[]⟩ ⟨[0]⟩ 0 "t"
      ⟨"tok12345", V2.Step.q7_age, V2.emptyAnswers, "t0", none⟩ ⟨none, "L"⟩ 34
      (by decide) rfl (by decide) (by decide) (by decide) (by decide)
      (by decide) (by decide)).2 (by decide)⟩

end TeacherBot
